import Mathlib

/-!
Shallow embedding of gnupg.py from the python-gnupg fork under verification:
the GPG engine class and the GPGWrapper subclass. Pure argument construction
is embedded as Lean functions on strings and lists; Python exceptions are
modelled with the PyErr type inside Except; child-process launches are
modelled as traces of the argument lists handed to the process launcher.
Helper code living in the sibling modules _parsers, _util and _meta is not
part of the given sources and is modelled from the specification where a
claim needs it; each such definition says so in its doc comment.
-/

namespace Gnupg

/-- Python exception values that the embedded methods can raise. -/
inductive PyErr : Type
  | valueError (msg : String)
  | nameError (name : String)
  | typeError (msg : String)
  | runtimeError (msg : String)
  | sanitizeError (token : String)
deriving DecidableEq

/-- Modelled from the spec: the shell metacharacters the input sanitizer of
the module _parsers rejects (quotes, backticks, semicolons, pipes,
redirections and similar characters that could alter argument-list parsing).
Char.ofNat is used for the quote, backtick, backslash and brace characters. -/
def shellMetaChars : List Char :=
  [Char.ofNat 39, Char.ofNat 34, Char.ofNat 96, Char.ofNat 92,
   ';', '|', '&', '<', '>', '$', '(', ')', '!', '*', '?',
   Char.ofNat 123, Char.ofNat 125]

/-- Modelled from the spec: a character is rejected when it is a shell
metacharacter or a control character (the latter covers newlines). -/
def isShellMetaChar (c : Char) : Bool :=
  shellMetaChars.contains c || decide (c.toNat < 32)

/-- Modelled from the spec: the input sanitizer of the module _parsers (named
with a fix prefix in the source), whose code is not under the given sources.
Per spec sections 4.1 and 8 it fails on a token containing shell
metacharacters or control characters and returns every other token
unchanged. -/
def sanitize (token : String) : Except PyErr String :=
  if token.data.any isShellMetaChar then Except.error (PyErr.sanitizeError token)
  else Except.ok token

/-- The Python join of a separator between the members of a list of strings,
as used by the expression joining sanitized keyids in GPG.recv_keys. -/
def str_join (sep : String) : List String → String
  | [] => ""
  | [s] => s
  | s :: rest => s ++ sep ++ str_join sep rest

/-- The list comprehension in GPG.recv_keys that sanitizes each keyid in
order, propagating the first sanitizer failure. -/
def sanitize_all : List String → Except PyErr (List String)
  | [] => Except.ok []
  | k :: rest =>
    match sanitize k with
    | Except.error e => Except.error e
    | Except.ok s =>
      match sanitize_all rest with
      | Except.error e => Except.error e
      | Except.ok srest => Except.ok (s :: srest)

/-- Embeds GPG.recv_keys, gnupg.py lines 353 to 379: the keyserver is passed
through the sanitizer first (the sanitized value is bound but never used
again, exactly as in the source, which inserts the raw keyserver into the
argument list); when keyids were given they are each sanitized, joined with
spaces, and then extended onto the argument list, and since args.extend
iterates a Python string character by character, each character of the
joined string becomes its own argument. Returns the argument list handed to
_handle_io, or the first exception raised. -/
def recv_keys (keyserver : String) (keyids : List String) :
    Except PyErr (List String) :=
  match sanitize keyserver with
  | Except.error e => Except.error e
  | Except.ok _safe_keyserver =>
    let args := ["--keyserver", keyserver, "--recv-keys"]
    if keyids.isEmpty then Except.ok args
    else
      match sanitize_all keyids with
      | Except.error e => Except.error e
      | Except.ok safe_list =>
        let safe_keyids := str_join " " safe_list
        Except.ok (args ++ safe_keyids.data.map String.singleton)

/-- The Python strip of leading and trailing whitespace, on the character
list of a string. -/
def strip_chars (cs : List Char) : List Char :=
  ((cs.dropWhile Char.isWhitespace).reverse.dropWhile Char.isWhitespace).reverse

/-- The Python strip on strings. -/
def py_strip (s : String) : String := String.mk (strip_chars s.data)

/-- The Python split on one separator character: the list of (possibly
empty) groups between separators; on the empty character list it is one
empty group, exactly as the Python split with an explicit separator. -/
def split_chars (sep : Char) : List Char → List (List Char)
  | [] => [[]]
  | c :: rest =>
    match split_chars sep rest with
    | [] => [[c]]
    | g :: gs => if c = sep then [] :: g :: gs else (c :: g) :: gs

/-- The Python split on strings. -/
def py_split (s : String) (sep : Char) : List String :=
  (split_chars sep s.data).map String.mk

/-- The recognized key listing keywords of GPG.list_keys, gnupg.py line 484. -/
def valid_keywords : List String := ["pub", "uid", "sec", "fpr", "sub"]

/-- Embeds the line dispatch loop of GPG.list_keys, gnupg.py lines 485 to
497, generic over the result state and over the handler family reached
through getattr (the concrete handlers live in the module _parsers, which is
not under the given sources): an empty line breaks out of the loop and
returns the accumulated result; otherwise the stripped line is split on
colons and the first field selects a handler only when it is one of the
recognized keywords, every other line being skipped. -/
def list_keys_loop {σ : Type} (handle : σ → String → List String → σ) :
    List String → σ → σ
  | [], result => result
  | line :: rest, result =>
    if line = "" then result
    else
      match py_split (py_strip line) ':' with
      | [] => list_keys_loop handle rest result
      | keyword :: fields =>
        if valid_keywords.contains keyword then
          list_keys_loop handle rest (handle result keyword (keyword :: fields))
        else
          list_keys_loop handle rest result

/-- Embeds the argument construction of GPG.list_keys, gnupg.py lines 468 to
473: one single option string element. -/
def list_keys_args (secret : Bool) : List String :=
  let which := if secret then "secret-keys" else "public-keys"
  ["--list-" ++ which ++ " --fixed-list-mode --fingerprint " ++
    "--with-colons --list-options no-show-photos"]

/-- Embeds the flag selection of GPG.delete_keys, gnupg.py lines 401 to 405:
the which variable starts at keys, is replaced when secret is set, and is
replaced again when subkeys is set. -/
def delete_which (secret subkeys : Bool) : String :=
  let which1 := "keys"
  let which2 := if secret then "secret-key" else which1
  if subkeys then "secret-and-public-key" else which2

/-- Embeds the argument construction of GPG.delete_keys, gnupg.py lines 410
to 411, for a fingerprint string (a list of fingerprints is joined with
spaces before this point in the source). -/
def delete_keys_args (fingerprints : String) (secret subkeys : Bool) :
    List String :=
  ["--batch", "--delete-" ++ delete_which secret subkeys ++ " " ++ fingerprints]

/-- The class attribute holding the batch limit of GPG, gnupg.py line 66. -/
def GPG_batch_limit : Nat := 25

/-- The ValueError message of GPG.list_sigs with the batch limit formatted
in. -/
def batch_limit_msg : String :=
  "List signatures is limited to 25 keyids simultaneously"

/-- The argument list built by GPG.list_sigs, gnupg.py lines 525 to 528. -/
def list_sigs_args (keyids : List String) : List String :=
  ["--with-colons", "--fixed-list-mode", "--list-sigs"] ++ keyids

/-- Embeds GPG.list_sigs, gnupg.py lines 507 to 534: over the batch limit it
raises ValueError before launching anything; otherwise it launches the child
with the built arguments, builds the result object, and then evaluates the
expression p.stdin in which the name p is unbound in the method (the
subprocess variable is named proc), so Python raises NameError and no result
object is ever returned. The second component is the trace of child
launches. -/
def list_sigs (keyids : List String) : Except PyErr Unit × List (List String) :=
  if keyids.length > GPG_batch_limit then
    (Except.error (PyErr.valueError batch_limit_msg), [])
  else
    (Except.error (PyErr.nameError "p"), [list_sigs_args keyids])

/-- The capability probe invocation launched by GPG, gnupg.py line 151. -/
def probe_args : List String := ["--list-config", "--with-colons"]

/-- The RuntimeError message of the GPG constructor, gnupg.py lines 155 to
156. -/
def init_error_msg (returncode : Int) (stderr : String) : String :=
  "Error invoking gpg: " ++ toString returncode ++ ": " ++ stderr

/-- Embeds the validation tail of the GPG constructor, gnupg.py lines 150 to
156, as a function of the exit code and stderr of the probe child: the probe
is launched, its output collected, and RuntimeError is raised exactly when
the exit code is nonzero. Construction up to this point (GPGBase setup and
the default preference list) lives in modules that are not under the given
sources and is modelled from the spec as succeeding. The second component is
the trace of child launches. -/
def GPG_construct (returncode : Int) (stderr : String) :
    Except PyErr Unit × List (List String) :=
  if returncode ≠ 0 then
    (Except.error (PyErr.runtimeError (init_error_msg returncode stderr)),
     [probe_args])
  else (Except.ok (), [probe_args])

/-- Whether an embedded outcome is a raised ValueError. -/
def raisesValueError {α : Type} : Except PyErr α → Bool
  | Except.error (PyErr.valueError _) => true
  | _ => false

/-- Whether an embedded outcome is a raised RuntimeError. -/
def raisesRuntimeError {α : Type} : Except PyErr α → Bool
  | Except.error (PyErr.runtimeError _) => true
  | _ => false

/-- The argument list of GPG.gen_key, gnupg.py line 552. -/
def gen_key_args : List String := ["--gen-key --batch"]

/-- Embeds the separate keyring rename logic of GPG.gen_key, gnupg.py lines
558 to 577, as a function of the stringified fingerprint, the generated keys
directory, the temporary keyring and secring paths recorded by
gen_key_input (none when no separate keyring was requested) and whether each
temporary file exists on disk. Returns the list of renames performed, each
as a source and destination pair. The guard in the source compares the
length of the fingerprint string with 20. -/
def gen_key_renames (fpr : String) (key_dir : String)
    (temp_keyring temp_secring : Option String)
    (keyring_isfile secring_isfile : Bool) : List (String × String) :=
  if fpr.length = 20 then
    let pfx := key_dir ++ "/" ++ fpr
    (match temp_keyring with
     | some kr => if keyring_isfile then [(kr, pfx ++ ".pubring")] else []
     | none => []) ++
    (match temp_secring with
     | some sr => if secring_isfile then [(sr, pfx ++ ".secring")] else []
     | none => [])
  else []

/-- Embeds the argument construction of GPG.decrypt_file, gnupg.py lines
1067 to 1073. -/
def decrypt_file_args (output : Option String) (always_trust : Bool) :
    List String :=
  ["--decrypt"]
    ++ (match output with
        | some o => ["--output " ++ o]
        | none => [])
    ++ (if always_trust then ["--always-trust"] else [])

/-- Modelled from the spec: the verification result variant of the module
_parsers, which is not under the given sources; spec section 3 gives it
validity, trust and signer fingerprint fields. -/
structure VerifyResult where
  valid : Bool
  fingerprint : Option String
  trust_level : Option Nat
  status : Option String
deriving DecidableEq

/-- The freshly constructed result of GPG.verify_file before any status line
arrives. -/
def freshVerifyResult : VerifyResult :=
  { valid := false, fingerprint := none, trust_level := none, status := none }

/-- Modelled from the spec: the success evaluation of a verification result;
per spec section 4.7 an empty result has seen no good signature line and
evaluates as failure. -/
def VerifyResult.success (r : VerifyResult) : Bool := r.valid

/-- Modelled from the spec: the file check of the module _util, which is not
under the given sources, over a filesystem modelled as the list of existing
file paths. -/
def is_file (fs : List String) (path : String) : Bool := fs.contains path

/-- Embeds GPG.verify_file, gnupg.py lines 268 to 305, parameterized by the
collector effect of the child (collect stands for _collect_output together
with the status lines the child emits) and by the ambient filesystem: with
no sig_file an embedded verification child is launched; with a sig_file that
is not an existing file the fresh result is returned at once with no launch;
otherwise the detached verification child is launched. The second component
is the trace of child launches. -/
def verify_file (collect : List String → VerifyResult → VerifyResult)
    (fs : List String) (sig_file : Option String) :
    VerifyResult × List (List String) :=
  match sig_file with
  | none => (collect ["--verify"] freshVerifyResult, [["--verify"]])
  | some sig_path =>
    if is_file fs sig_path = false then (freshVerifyResult, [])
    else
      let args := ["--verify " ++ sig_path ++ " - "]
      (collect args freshVerifyResult, [args])

/-- Modelled from the spec: the packet listing result variant of the module
_parsers, with the recipient key field and the symmetric encryption flag. -/
structure PacketListResult where
  key : Option String
  need_passphrase_sym : Bool
deriving DecidableEq

/-- Embeds GPGWrapper.is_encrypted_sym, gnupg.py lines 1144 to 1146, as a
function of the packet listing result obtained from the child. -/
def is_encrypted_sym (packets : PacketListResult) : Bool :=
  packets.need_passphrase_sym

/-- Embeds GPGWrapper.is_encrypted_asym, gnupg.py lines 1148 to 1150, as a
function of the packet listing result obtained from the child. -/
def is_encrypted_asym (packets : PacketListResult) : Bool :=
  packets.key.isSome

/-- Python values an embedded method can yield to its caller. -/
inductive PyValue : Type
  | pyNone
  | pyBool (b : Bool)
deriving DecidableEq

/-- The TypeError message Python produces for the first call in the body of
GPGWrapper.is_encrypted. -/
def type_error_msg : String :=
  "is_encrypted_asym() missing 1 required positional argument"

/-- Embeds GPGWrapper.is_encrypted, gnupg.py lines 1152 to 1153. The body is
the bare disjunction of calls to is_encrypted_asym and is_encrypted_sym;
is_encrypted_asym takes raw_data but is called with no argument, so Python
raises TypeError while binding the arguments of the first call, before any
packet listing child is launched; and even with well-formed calls the body
has no return statement, so no boolean would reach the caller. The second
component is the trace of child launches. -/
def is_encrypted (_raw_data : String) :
    Except PyErr PyValue × List (List String) :=
  (Except.error (PyErr.typeError type_error_msg), [])

/-! ## Helper lemmas -/

theorem string_data_append (s t : String) : (s ++ t).data = s.data ++ t.data := by
  cases s
  cases t
  rfl

theorem sanitize_ok_elim (t v : String) (h : sanitize t = Except.ok v) :
    v = t ∧ t.data.any isShellMetaChar = false := by
  unfold sanitize at h
  by_cases hc : t.data.any isShellMetaChar = true
  · rw [if_pos hc] at h
    cases h
  · rw [if_neg hc] at h
    cases h
    exact ⟨rfl, by simpa using hc⟩

theorem sanitize_self (t : String) (h : t.data.any isShellMetaChar = false) :
    sanitize t = Except.ok t := by
  unfold sanitize
  rw [if_neg]
  simp [h]

theorem sanitize_singleton (c : Char) (hc : isShellMetaChar c = false) :
    sanitize (String.singleton c) = Except.ok (String.singleton c) := by
  apply sanitize_self
  show List.any [c] isShellMetaChar = false
  simp [hc]

theorem sanitize_all_elim (l out : List String) (h : sanitize_all l = Except.ok out) :
    out = l ∧ ∀ s ∈ l, s.data.any isShellMetaChar = false := by
  induction l generalizing out with
  | nil =>
    unfold sanitize_all at h
    cases h
    exact ⟨rfl, by simp⟩
  | cons k rest ih =>
    cases hk : sanitize k with
    | error e => simp [sanitize_all, hk] at h
    | ok s =>
      cases hr : sanitize_all rest with
      | error e => simp [sanitize_all, hk, hr] at h
      | ok srest =>
        simp only [sanitize_all, hk, hr, Except.ok.injEq] at h
        obtain ⟨hs, hsafe⟩ := sanitize_ok_elim k s hk
        obtain ⟨ho, hall⟩ := ih srest hr
        subst hs
        subst ho
        subst h
        refine ⟨rfl, ?_⟩
        intro x hx
        rcases List.mem_cons.mp hx with hx | hx
        · subst hx
          exact hsafe
        · exact hall x hx

theorem str_join_data_mem (sep : String) (l : List String) (c : Char)
    (h : c ∈ (str_join sep l).data) : c ∈ sep.data ∨ ∃ s ∈ l, c ∈ s.data := by
  induction l with
  | nil =>
    simp [str_join] at h
  | cons s rest ih =>
    cases rest with
    | nil =>
      simp only [str_join] at h
      exact Or.inr ⟨s, by simp, h⟩
    | cons r rs =>
      simp only [str_join] at h
      rw [string_data_append, string_data_append] at h
      rcases List.mem_append.mp h with h1 | h2
      · rcases List.mem_append.mp h1 with ha | hb
        · exact Or.inr ⟨s, by simp, ha⟩
        · exact Or.inl hb
      · rcases ih h2 with h3 | ⟨t, ht, hc⟩
        · exact Or.inl h3
        · exact Or.inr ⟨t, by simp [ht], hc⟩

theorem recv_keys_ok_head (keyserver : String) (keyids : List String)
    (args : List String) (h : recv_keys keyserver keyids = Except.ok args) :
    ∃ t, args = "--keyserver" :: t := by
  cases hks : sanitize keyserver with
  | error e =>
    simp only [recv_keys, hks] at h
    exact Except.noConfusion h
  | ok v =>
    by_cases hemp : keyids.isEmpty = true
    · simp only [recv_keys, hks, if_pos hemp, Except.ok.injEq] at h
      exact ⟨_, h.symm⟩
    · cases hall : sanitize_all keyids with
      | error e =>
        simp only [recv_keys, hks, if_neg hemp, hall] at h
        exact Except.noConfusion h
      | ok safe_list =>
        simp only [recv_keys, hks, if_neg hemp, hall, Except.ok.injEq] at h
        exact ⟨_, h.symm⟩

/-! ## Claim theorems -/

/-- C1: for every call to recv_keys, every externally supplied identifier
inserted into the child-process argument list is first passed through the
input sanitizer, so whenever recv_keys produces an argument list, every
member of that list is a token the sanitizer accepts unchanged: the fixed
flags, the keyserver (sanitized first, and raised on when rejected, before
the list reaches the child) and each character of the sanitized, joined
keyids. -/
theorem recv_keys_args_sanitized (keyserver : String) (keyids : List String)
    (args : List String) (h : recv_keys keyserver keyids = Except.ok args) :
    ∀ a ∈ args, sanitize a = Except.ok a := by
  intro a ha
  cases hks : sanitize keyserver with
  | error e =>
    simp only [recv_keys, hks] at h
    exact Except.noConfusion h
  | ok v =>
    obtain ⟨hv, hsafe⟩ := sanitize_ok_elim keyserver v hks
    by_cases hemp : keyids.isEmpty = true
    · simp only [recv_keys, hks, if_pos hemp, Except.ok.injEq] at h
      subst h
      simp only [List.mem_cons, List.not_mem_nil, or_false] at ha
      rcases ha with rfl | rfl | rfl
      · exact (by rfl : sanitize "--keyserver" = Except.ok "--keyserver")
      · exact sanitize_self _ hsafe
      · exact (by rfl : sanitize "--recv-keys" = Except.ok "--recv-keys")
    · cases hall : sanitize_all keyids with
      | error e =>
        simp only [recv_keys, hks, if_neg hemp, hall] at h
        exact Except.noConfusion h
      | ok safe_list =>
        simp only [recv_keys, hks, if_neg hemp, hall, Except.ok.injEq] at h
        subst h
        obtain ⟨hsl, hall_safe⟩ := sanitize_all_elim keyids safe_list hall
        subst hsl
        rcases List.mem_append.mp ha with hb | hm
        · simp only [List.mem_cons, List.not_mem_nil, or_false] at hb
          rcases hb with rfl | rfl | rfl
          · exact (by rfl : sanitize "--keyserver" = Except.ok "--keyserver")
          · exact sanitize_self _ hsafe
          · exact (by rfl : sanitize "--recv-keys" = Except.ok "--recv-keys")
        · rcases List.mem_map.mp hm with ⟨c, hc, rfl⟩
          rcases str_join_data_mem " " safe_list c hc with hsep | ⟨s, hsl2, hcs⟩
          · have hsp : c = ' ' := by
              have : c ∈ [' '] := hsep
              simpa using this
            subst hsp
            exact sanitize_singleton ' ' (by decide)
          · cases hmc : isShellMetaChar c with
            | false => exact sanitize_singleton c hmc
            | true =>
              have : List.any s.data isShellMetaChar = true :=
                List.any_eq_true.mpr ⟨c, hcs, hmc⟩
              rw [hall_safe s hsl2] at this
              cases this

/-- C1 witness: at the concrete call with keyserver pgp.mit.edu and the one
keyid 3FF0DB166A7476EA, the produced argument list contains the keyserver,
and it is a token the sanitizer accepts unchanged. -/
theorem recv_keys_args_sanitized_witness :
    sanitize "pgp.mit.edu" = Except.ok "pgp.mit.edu" :=
  recv_keys_args_sanitized "pgp.mit.edu" ["3FF0DB166A7476EA"]
    (["--keyserver", "pgp.mit.edu", "--recv-keys"] ++
      ("3FF0DB166A7476EA".data.map String.singleton))
    (by rfl) "pgp.mit.edu" (by decide)

/-- C2: at the failing input of one keyid (under the batch limit of 25),
list_sigs does not return a result object: it launches the child and then
raises NameError, because the name p in the expression p.stdin is unbound in
the method. This evaluates the embedded method at the failing input of the
code bug recorded for this claim. -/
theorem list_sigs_raises_name_error :
    list_sigs ["0A1B2C3D"] =
      (Except.error (PyErr.nameError "p"),
       [["--with-colons", "--fixed-list-mode", "--list-sigs", "0A1B2C3D"]]) := by
  rfl

/-- C3: at the failing input of a generated key whose v4 fingerprint is 40
hex characters, with the separate keyring and secring recorded and both
temporary files present, gen_key performs no rename at all, because the
source guards the rename block on a fingerprint length of 20. This evaluates
the embedded rename logic at the failing input of the code bug recorded for
this claim. -/
theorem gen_key_no_rename_for_v4_fingerprint :
    gen_key_renames "1B9232D7C8E1F2A34455667788990011AABBCCDD"
      "homedir/generated-keys"
      (some "homedir/alice_1381000000.pubring")
      (some "homedir/alice_1381000000.secring") true true = [] := by
  rfl

/-- C4 counterexample: at the concrete input raw_data = "secret message",
is_encrypted does not evaluate the encryption check at all: the call raises
TypeError while binding the arguments of the call to is_encrypted_asym,
which is made without the required raw_data argument, and the trace of
packet listing child launches is empty. This refutes the claim as stated,
whose middle clause says the call evaluates the encryption check; the claim
is right that the boolean result never reaches the caller. -/
theorem is_encrypted_counterexample :
    is_encrypted "secret message" =
      (Except.error (PyErr.typeError type_error_msg), []) := by
  rfl

/-- C4 as amended: for every input raw_data, is_encrypted never yields the
boolean disjunction of is_encrypted_sym and is_encrypted_asym to the caller;
the call raises TypeError before the encryption check is evaluated (the
helper is invoked without its raw_data argument) and launches no child, so
no computed value is returned. -/
theorem is_encrypted_never_returns (raw_data : String) :
    is_encrypted raw_data =
      (Except.error (PyErr.typeError type_error_msg), []) := by
  rfl

/-- C5: the binary is validated exactly once, at engine construction: the
constructor launches the capability probe and raises RuntimeError exactly
when the probe exit code is nonzero; and none of the embedded later
operations ever launches the probe invocation again. -/
theorem construct_probe_validation (returncode : Int) (stderr : String) :
    (raisesRuntimeError (GPG_construct returncode stderr).1 = true ↔
      returncode ≠ 0)
    ∧ (GPG_construct returncode stderr).2 = [probe_args]
    ∧ (∀ fingerprints secret subkeys,
        delete_keys_args fingerprints secret subkeys ≠ probe_args)
    ∧ (∀ secret, list_keys_args secret ≠ probe_args)
    ∧ (∀ keyids, probe_args ∉ (list_sigs keyids).2)
    ∧ (∀ output always_trust, decrypt_file_args output always_trust ≠ probe_args)
    ∧ gen_key_args ≠ probe_args
    ∧ (∀ keyserver keyids args,
        recv_keys keyserver keyids = Except.ok args → args ≠ probe_args)
    ∧ (∀ collect fs sig_file, ∀ a ∈ (verify_file collect fs sig_file).2,
        a ≠ probe_args) := by
  refine ⟨?_, ?_, ?_, ?_, ?_, ?_, ?_, ?_, ?_⟩
  · by_cases h : returncode = 0
    · simp [GPG_construct, h, raisesRuntimeError]
    · simp [GPG_construct, h, raisesRuntimeError]
  · by_cases h : returncode = 0 <;> simp [GPG_construct, h]
  · intro fingerprints secret subkeys h
    injection h with h1 h2
    exact absurd h1 (by decide)
  · intro secret h
    cases secret <;> simp [list_keys_args, probe_args] at h
  · intro keyids
    by_cases h : keyids.length > GPG_batch_limit
    · simp [list_sigs, h]
    · intro hmem
      simp only [list_sigs, if_neg h, List.mem_singleton] at hmem
      injection hmem with h1 h2
      exact absurd h1 (by decide)
  · intro output always_trust h
    injection h with h1 h2
    exact absurd h1 (by decide)
  · intro h
    injection h with h1 h2
    exact absurd h1 (by decide)
  · intro keyserver keyids args h heq
    obtain ⟨t, rfl⟩ := recv_keys_ok_head keyserver keyids args h
    injection heq with h1 h2
    exact absurd h1 (by decide)
  · intro collect fs sig_file a ha heq
    cases sig_file with
    | none =>
      simp only [verify_file, List.mem_singleton] at ha
      subst ha
      simp [probe_args] at heq
    | some sig_path =>
      by_cases hf : is_file fs sig_path = false
      · simp [verify_file, hf] at ha
      · simp only [verify_file, if_neg hf, List.mem_singleton] at ha
        subst ha
        simp [probe_args] at heq

/-- C5 witness: at the concrete probe exit code 1, construction raises
RuntimeError, and the trace of launches at construction is exactly the
probe. -/
theorem construct_probe_validation_witness :
    raisesRuntimeError (GPG_construct 1 "gpg: not found").1 = true
    ∧ (GPG_construct 1 "gpg: not found").2 = [probe_args] :=
  ⟨(construct_probe_validation 1 "gpg: not found").1.mpr (by decide),
   (construct_probe_validation 1 "gpg: not found").2.1⟩

/-- C6: in the line dispatch of list_keys, a nonempty line whose first
colon-separated field is not one of pub, uid, sec, fpr, sub is ignored: for
every handler family and every result state, processing the line is the same
as not processing it, so no handler is invoked for it, nothing is raised,
and the result is left unchanged by that line. -/
theorem unrecognized_keyword_ignored {σ : Type}
    (handle : σ → String → List String → σ) (result : σ)
    (line : String) (rest : List String)
    (hne : ¬ line = "")
    (hkw : valid_keywords.contains ((py_split (py_strip line) ':').headD "")
      = false) :
    list_keys_loop handle (line :: rest) result
      = list_keys_loop handle rest result := by
  rw [list_keys_loop]
  rw [if_neg hne]
  cases hL : py_split (py_strip line) ':' with
  | nil => rfl
  | cons keyword fields =>
    rw [hL] at hkw
    simp only [List.headD_cons] at hkw
    show (if valid_keywords.contains keyword = true then
        list_keys_loop handle rest (handle result keyword (keyword :: fields))
      else list_keys_loop handle rest result)
      = list_keys_loop handle rest result
    rw [hkw]
    rfl

/-- C6 witness: the concrete trust database line, whose keyword tru is not
recognized, leaves a counting state unchanged and invokes no handler. -/
theorem unrecognized_keyword_ignored_witness :
    list_keys_loop (fun (n : Nat) _ _ => n + 1)
        ["tru::1:1379329310:0:3:1:5", "pub:u:4096:1:AABBCCDD:1:2::u"] 0
      = list_keys_loop (fun (n : Nat) _ _ => n + 1)
          ["pub:u:4096:1:AABBCCDD:1:2::u"] 0 :=
  unrecognized_keyword_ignored (fun (n : Nat) _ _ => n + 1) 0
    "tru::1:1379329310:0:3:1:5" ["pub:u:4096:1:AABBCCDD:1:2::u"]
    (by decide) (by decide)

/-- C7: verify_file called with a sig_file that is not an existing file
returns the freshly created, empty verification result, which evaluates as
failure, and launches no child process; nothing is raised. -/
theorem verify_file_missing_sig_file
    (collect : List String → VerifyResult → VerifyResult)
    (fs : List String) (sig_path : String)
    (h : is_file fs sig_path = false) :
    verify_file collect fs (some sig_path) = (freshVerifyResult, [])
    ∧ VerifyResult.success freshVerifyResult = false := by
  constructor
  · simp [verify_file, h]
  · rfl

/-- C7 witness: with an empty filesystem and the concrete missing path
detached.sig, verify_file returns the fresh result with an empty launch
trace, and that result evaluates as failure. -/
theorem verify_file_missing_sig_file_witness :
    verify_file (fun _ r => r) [] (some "detached.sig")
      = (freshVerifyResult, [])
    ∧ VerifyResult.success freshVerifyResult = false :=
  verify_file_missing_sig_file (fun _ r => r) [] "detached.sig" (by decide)

/-- C8: list_sigs raises ValueError exactly when called with strictly more
than the batch limit of 25 keyids, and in exactly that case nothing is
launched, the error being raised before any subprocess; at or under the
limit no ValueError is raised. -/
theorem list_sigs_batch_limit_check (keyids : List String) :
    (raisesValueError (list_sigs keyids).1 = true ↔
      keyids.length > GPG_batch_limit)
    ∧ ((list_sigs keyids).2 = [] ↔ keyids.length > GPG_batch_limit) := by
  by_cases h : keyids.length > GPG_batch_limit
  · simp [list_sigs, h, raisesValueError]
  · simp [list_sigs, h, raisesValueError, list_sigs_args]

/-- C9: in delete_keys the subkeys flag takes precedence: with subkeys set
the command always deletes secret and public key regardless of secret; with
only secret set it deletes the secret key; with both clear it deletes public
keys. -/
theorem delete_keys_flag_precedence (fingerprints : String) :
    (∀ secret, delete_keys_args fingerprints secret true
        = ["--batch", "--delete-secret-and-public-key " ++ fingerprints])
    ∧ delete_keys_args fingerprints true false
        = ["--batch", "--delete-secret-key " ++ fingerprints]
    ∧ delete_keys_args fingerprints false false
        = ["--batch", "--delete-keys " ++ fingerprints] := by
  refine ⟨fun secret => ?_, rfl, rfl⟩
  cases secret <;> rfl

/-- C10: the line dispatch of list_keys stops at the first empty line: when
no line of the prefix is empty, processing the prefix followed by an empty
line and arbitrary further lines equals processing the prefix alone, so no
line after the first empty line is ever dispatched. -/
theorem stops_at_first_empty_line {σ : Type}
    (handle : σ → String → List String → σ) (result : σ)
    (pre post : List String) (hpre : ∀ l ∈ pre, ¬ l = "") :
    list_keys_loop handle (pre ++ "" :: post) result
      = list_keys_loop handle pre result := by
  induction pre generalizing result with
  | nil =>
    simp only [List.nil_append]
    rfl
  | cons line rest ih =>
    have hline : ¬ line = "" := hpre line (List.mem_cons_self _ _)
    have hrest : ∀ l ∈ rest, ¬ l = "" := fun l hl =>
      hpre l (List.mem_cons_of_mem _ hl)
    simp only [List.cons_append]
    rw [list_keys_loop, list_keys_loop]
    rw [if_neg hline, if_neg hline]
    cases hL : py_split (py_strip line) ':' with
    | nil =>
      exact ih result hrest
    | cons keyword fields =>
      show (if valid_keywords.contains keyword = true then
            list_keys_loop handle (rest ++ "" :: post)
              (handle result keyword (keyword :: fields))
          else list_keys_loop handle (rest ++ "" :: post) result)
        = (if valid_keywords.contains keyword = true then
            list_keys_loop handle rest (handle result keyword (keyword :: fields))
          else list_keys_loop handle rest result)
      cases hkw : valid_keywords.contains keyword with
      | true => exact ih (handle result keyword (keyword :: fields)) hrest
      | false => exact ih result hrest

/-- C10 witness: with the concrete listing in which a pub line precedes an
empty line that precedes an fpr line, processing stops at the empty line:
the run equals the run on the pub line alone. -/
theorem stops_at_first_empty_line_witness :
    list_keys_loop (fun (n : Nat) _ _ => n + 1)
        (["pub:u:4096:1:AABBCCDD:1:2::u"] ++
          "" :: ["fpr:::::::::1B9232D7C8E1F2A34455667788990011AABBCCDD:"]) 0
      = list_keys_loop (fun (n : Nat) _ _ => n + 1)
          ["pub:u:4096:1:AABBCCDD:1:2::u"] 0 :=
  stops_at_first_empty_line (fun (n : Nat) _ _ => n + 1) 0
    ["pub:u:4096:1:AABBCCDD:1:2::u"]
    ["fpr:::::::::1B9232D7C8E1F2A34455667788990011AABBCCDD:"]
    (by decide)

end Gnupg
